/-
Verification of the provisioning script `create_project.py`.

The script is a linear Laravel project provisioner.  The parts embedded here
are the deterministic text transformations and the control structure that the
claims are about:

  * the `.env` line patch (lines 113-154 of the source): a per-line rewrite,
    modelled by `updateEnvLine` / `updateEnvFile`.  A line is modelled as its
    character list without the trailing newline; the source reads lines with
    `readlines()` and writes replacements that all end in a newline, so the
    per-line content and the line count are captured exactly.
  * Python's `str.replace` for a non-empty search string (all call sites use
    non-empty literals), modelled by `replaceFuel` / `pyReplace`: a left-to-right
    scan replacing each non-overlapping occurrence and continuing after the
    replaced segment.
  * the `composer.json` update (lines 171-178), modelled by `composerUpdate`.
  * the `vite.config.js` update (lines 221-241), modelled by `viteUpdate`;
    its two guarded (search, replacement) edits are also exposed separately as
    `viteImportEdit` and `vitePluginEdit`.
  * the guarded file steps (missing-file-skip) over an abstract file state,
    modelled by `editEnvStep`, `editComposerStep`, `editViteStep`, `fileOpsRun`.
  * the fail-fast sequence of external commands (`subprocess.run(check=True)`),
    modelled by `runScript` over the script's literal step list
    `sailPipelineSteps`, with an oracle saying which commands succeed.
-/
import Mathlib

set_option maxRecDepth 100000

/-! ## Basic character-list string operations (Python semantics) -/

/-- Python whitespace test used by `str.strip`. -/
def isSpaceChar (c : Char) : Bool :=
  c == ' ' || c == '\t' || c == '\n' || c == '\r' || c == '\x0b' || c == '\x0c'

/-- Python `str.strip()`: remove leading and trailing whitespace. -/
def pyStrip (l : List Char) : List Char :=
  ((l.dropWhile isSpaceChar).reverse.dropWhile isSpaceChar).reverse

/-- Python `str.startswith(pat)` on character lists. -/
def listStartsWith : List Char → List Char → Bool
  | [], _ => true
  | _ :: _, [] => false
  | p :: ps, c :: cs => p == c && listStartsWith ps cs

/-- Python `pat in s` (substring containment) on character lists. -/
def listContainsSub (pat : List Char) : List Char → Bool
  | [] => listStartsWith pat []
  | c :: cs => listStartsWith pat (c :: cs) || listContainsSub pat cs

/-- True when both lists are non-empty and start with different characters. -/
def headDiff : List Char → List Char → Bool
  | c :: _, d :: _ => c != d
  | _, _ => false

/-! ## The `.env` line patch (source lines 113-154) -/

/-- One iteration of the `.env` update loop: the ordered `if`/`elif` chain of
the source, first match wins, unmatched lines pass through unchanged. -/
def updateEnvLine (line : List Char) : List Char :=
  if listStartsWith "DB_CONNECTION".toList (pyStrip line) then
    if listContainsSub "=mysql".toList (pyStrip line)
        || listContainsSub "=sqlite".toList (pyStrip line) then
      "DB_CONNECTION=pgsql".toList
    else line
  else if listStartsWith "#".toList (pyStrip line)
      && listContainsSub "DB_HOST".toList (pyStrip line) then
    "DB_HOST=pgsql".toList
  else if listStartsWith "#".toList (pyStrip line)
      && listContainsSub "DB_PORT".toList (pyStrip line) then
    "DB_PORT=5432".toList
  else if listStartsWith "#".toList (pyStrip line)
      && listContainsSub "DB_DATABASE".toList (pyStrip line) then
    "DB_DATABASE=laravel".toList
  else if listStartsWith "#".toList (pyStrip line)
      && listContainsSub "DB_USERNAME".toList (pyStrip line) then
    "DB_USERNAME=sail".toList
  else if listStartsWith "#".toList (pyStrip line)
      && listContainsSub "DB_PASSWORD".toList (pyStrip line) then
    "DB_PASSWORD=password".toList
  else if listStartsWith "DB_HOST=".toList (pyStrip line) then
    "DB_HOST=pgsql".toList
  else if listStartsWith "DB_PORT=".toList (pyStrip line) then
    "DB_PORT=5432".toList
  else if listStartsWith "DB_DATABASE=".toList (pyStrip line) then
    "DB_DATABASE=laravel".toList
  else if listStartsWith "DB_USERNAME=".toList (pyStrip line) then
    "DB_USERNAME=sail".toList
  else if listStartsWith "DB_PASSWORD=".toList (pyStrip line) then
    "DB_PASSWORD=password".toList
  else line

/-- The whole `.env` patch: the loop appends exactly one rewritten line per
input line, i.e. a map over the lines. -/
def updateEnvFile (lines : List (List Char)) : List (List Char) :=
  lines.map updateEnvLine

/-- Modelled from the spec: the "value" of an environment line, the text after
the first equals sign of the trimmed line (used only to state claim C1, which
speaks of the line's value; the code itself never parses a value). -/
def specLineValue (line : List Char) : List Char :=
  ((pyStrip line).dropWhile (fun c => c != '=')).drop 1

/-! ## Python `str.replace` (non-empty search string) -/

/-- Fuel-driven left-to-right scan-and-replace.  One unit of fuel is spent per
replaced occurrence or per kept character; fuel `s.length` is always enough
because an occurrence consumes at least one character. -/
def replaceFuel (search repl : List Char) : Nat → List Char → List Char
  | _, [] => []
  | 0, s => s
  | fuel + 1, c :: rest =>
    if listStartsWith search (c :: rest) then
      repl ++ replaceFuel search repl fuel (rest.drop (search.length - 1))
    else
      c :: replaceFuel search repl fuel rest

/-- Python `s.replace(search, repl)` for non-empty `search` (every call site of
the script passes a non-empty literal). -/
def pyReplace (search repl s : List Char) : List Char :=
  replaceFuel search repl s.length s

/-! ## The `composer.json` update (source lines 171-178) -/

def composerSearch : List Char := "php artisan".toList

def composerRepl : List Char := "./vendor/bin/sail artisan".toList

/-- `composer_content.replace("php artisan", "./vendor/bin/sail artisan")`. -/
def composerUpdate (s : List Char) : List Char :=
  pyReplace composerSearch composerRepl s

/-! ## The `vite.config.js` update (source lines 221-241) -/

def viteVueImportGuard : List Char :=
  "import vue from \x27@vitejs/plugin-vue\x27".toList

def viteLaravelImport : List Char :=
  "import laravel from \x27laravel-vite-plugin\x27;".toList

def viteVueImportLine : List Char :=
  "\nimport vue from \x27@vitejs/plugin-vue\x27;".toList

def viteVueCallGuard : List Char := "vue(\x7b".toList

def viteLaravelCall : List Char := "        laravel(\x7b".toList

def viteVueCallBlock : List Char :=
  ("        vue(\x7b\n            template: \x7b\n                transformAssetUrls: \x7b\n"
    ++ "                    base: null,\n                    includeAbsolute: false,\n"
    ++ "                \x7d,\n            \x7d,\n        \x7d),\n").toList

/-- A substring-guarded find-and-replace: do nothing when `guard` is already
present, otherwise replace every occurrence of `search` by `repl`. -/
def guardedReplace (guard search repl s : List Char) : List Char :=
  if listContainsSub guard s then s else pyReplace search repl s

/-- The first guarded (search, replacement) pair of the vite update: insert the
vue import line after the laravel import, unless the vue import is present. -/
def viteImportEdit (s : List Char) : List Char :=
  guardedReplace viteVueImportGuard viteLaravelImport
    (viteLaravelImport ++ viteVueImportLine) s

/-- The second guarded (search, replacement) pair of the vite update: insert the
vue plugin block before the `laravel({` call, unless `vue({` is present. -/
def vitePluginEdit (s : List Char) : List Char :=
  guardedReplace viteVueCallGuard viteLaravelCall
    (viteVueCallBlock ++ viteLaravelCall) s

/-- The whole `vite.config.js` content update, with the source's nesting: the
`vue({` check and insertion happen only inside the branch where the vue import
was absent and the import insertion was attempted. -/
def viteUpdate (s : List Char) : List Char :=
  if listContainsSub viteVueImportGuard s then s
  else
    vitePluginEdit
      (pyReplace viteLaravelImport (viteLaravelImport ++ viteVueImportLine) s)

/-! ## Guarded file-edit steps over an abstract file state (for claim C6) -/

/-- The files touched by the edit/update steps, `none` meaning the file does
not exist, plus a flag recording the docker-compose write. -/
structure ProjectFiles where
  dockerWritten : Bool
  env : Option (List (List Char))
  composerJson : Option (List Char)
  viteConfig : Option (List Char)
deriving DecidableEq

/-- The `.env` update step: `if env_file.exists()` guard of the source; the
returned Bool is true when the warning path was taken (file missing). -/
def editEnvStep (fs : ProjectFiles) : ProjectFiles × Bool :=
  match fs.env with
  | some ls => ({ fs with env := some (updateEnvFile ls) }, false)
  | none => (fs, true)

/-- The `composer.json` update step with its existence guard. -/
def editComposerStep (fs : ProjectFiles) : ProjectFiles × Bool :=
  match fs.composerJson with
  | some s => ({ fs with composerJson := some (composerUpdate s) }, false)
  | none => (fs, true)

/-- The `vite.config.js` update step with its existence guard. -/
def editViteStep (fs : ProjectFiles) : ProjectFiles × Bool :=
  match fs.viteConfig with
  | some s => ({ fs with viteConfig := some (viteUpdate s) }, false)
  | none => (fs, true)

/-- The file-operation part of the pipeline in source order: the
docker-compose `FileWriteStep` (whose I/O failure, modelled by `ioOk = false`,
raises and aborts: result `none`), then the three guarded edit steps, which
never abort.  The returned Bools are the three warning flags. -/
def fileOpsRun (ioOk : Bool) (fs : ProjectFiles) :
    Option (ProjectFiles × (Bool × Bool × Bool)) :=
  if ioOk then
    let fs0 := { fs with dockerWritten := true }
    let r1 := editEnvStep fs0
    let r2 := editComposerStep r1.1
    let r3 := editViteStep r2.1
    some (r3.1, (r1.2, r2.2, r3.2))
  else none

/-! ## The external-command sequence (for claim C4) -/

/-- One external command of the script, with the progress notice printed before
it and the completion notice printed after it. -/
structure PipelineStep where
  startMsg : String
  command : String
  doneMsg : String
deriving DecidableEq

/-- Observable events of a run: a printed notice, or a launched command. -/
inductive TraceItem where
  | notice (msg : String)
  | launched (command : String)
deriving DecidableEq

/-- Run the command sequence as the script does: print the starting notice,
run the command (`subprocess.run(..., check=True)`), and only on success print
the completion notice and continue; a failing command ends the run at once
(the uncaught `CalledProcessError` terminates the script), with no further
events of any kind. `ok` tells which commands succeed. -/
def runScript (ok : String → Bool) : List PipelineStep → List TraceItem × Bool
  | [] => ([], true)
  | st :: rest =>
    if ok st.command then
      let r := runScript ok rest
      (TraceItem.notice st.startMsg :: TraceItem.launched st.command ::
        TraceItem.notice st.doneMsg :: r.1, r.2)
    else
      ([TraceItem.notice st.startMsg, TraceItem.launched st.command], false)

/-- The trace of a fully successful run of a step list. -/
def successTrace : List PipelineStep → List TraceItem
  | [] => []
  | st :: rest =>
    TraceItem.notice st.startMsg :: TraceItem.launched st.command ::
      TraceItem.notice st.doneMsg :: successTrace rest

/-- The script's nine external commands, in source order, with their literal
progress messages (the project name of the source's f-strings is rendered as
`<name>`). -/
def sailPipelineSteps : List PipelineStep :=
  [⟨"Installing Laravel installer...",
    "composer global require laravel/installer",
    "Laravel installer installed successfully"⟩,
   ⟨"Creating Laravel project \x27<name>\x27...",
    "laravel new <name> --pest --boost --npm --no-interaction",
    "Laravel project \x27<name>\x27 created successfully"⟩,
   ⟨"Installing Laravel Sail...",
    "composer require laravel/sail --dev",
    "Laravel Sail installed successfully"⟩,
   ⟨"Starting Sail containers...",
    "./vendor/bin/sail up -d",
    "Sail containers started successfully"⟩,
   ⟨"Running database migrations...",
    "./vendor/bin/sail artisan migrate",
    "Database migrations completed successfully"⟩,
   ⟨"Installing Inertia.js Laravel adapter...",
    "./vendor/bin/sail composer require inertiajs/inertia-laravel",
    "Inertia.js Laravel adapter installed successfully"⟩,
   ⟨"Installing Vue and dependencies...",
    "./vendor/bin/sail npm install vue @vitejs/plugin-vue @inertiajs/vue3",
    "Vue and dependencies installed successfully"⟩,
   ⟨"Installing Tailwind CSS 4...",
    "./vendor/bin/sail npm install -D tailwindcss @tailwindcss/vite",
    "Tailwind CSS 4 installed successfully"⟩,
   ⟨"Installing Inertia middleware...",
    "./vendor/bin/sail artisan inertia:middleware",
    "Inertia middleware installed successfully"⟩]

/-! ## Helper lemmas about the string operations -/

/-- Two patterns with different first characters cannot both match at the same
position. -/
theorem startsWith_clash {p q s : List Char} (hpq : headDiff p q = true)
    (h : listStartsWith p s = true) : listStartsWith q s = false := by
  cases p with
  | nil => simp [headDiff] at hpq
  | cons c p' =>
    cases q with
    | nil => simp [headDiff] at hpq
    | cons d q' =>
      cases s with
      | nil => rfl
      | cons e t =>
        simp only [headDiff, bne_iff_ne] at hpq
        simp only [listStartsWith, Bool.and_eq_true, beq_iff_eq] at h
        simp only [listStartsWith, Bool.and_eq_false_iff]
        exact Or.inl (by simp [beq_eq_false_iff_ne]; intro hde; exact hpq (h.1.trans hde.symm))

/-- A matched pattern is an initial segment of the text. -/
theorem startsWith_append_drop :
    ∀ (pat s : List Char), listStartsWith pat s = true → pat ++ s.drop pat.length = s
  | [], s, _ => rfl
  | p :: ps, [], h => by simp [listStartsWith] at h
  | p :: ps, c :: cs, h => by
    simp only [listStartsWith, Bool.and_eq_true, beq_iff_eq] at h
    simpa [h.1, List.length_cons, List.drop_succ_cons] using
      congrArg (c :: ·) (startsWith_append_drop ps cs h.2)

/-- A pattern matches any extension of a text it matches. -/
theorem startsWith_append_of :
    ∀ (pat u v : List Char), listStartsWith pat u = true →
      listStartsWith pat (u ++ v) = true
  | [], _, _, _ => rfl
  | p :: ps, [], v, h => by simp [listStartsWith] at h
  | p :: ps, c :: cs, v, h => by
    simp only [listStartsWith, Bool.and_eq_true, beq_iff_eq] at h ⊢
    exact ⟨h.1, startsWith_append_of ps cs v h.2⟩

/-- Every pattern matches on itself. -/
theorem startsWith_refl : ∀ (pat : List Char), listStartsWith pat pat = true
  | [] => rfl
  | p :: ps => by
    simp [listStartsWith, startsWith_refl ps]

/-- The empty pattern is contained in every text. -/
theorem containsSub_nil : ∀ (s : List Char), listContainsSub [] s = true
  | [] => rfl
  | _ :: _ => by simp [listContainsSub, listStartsWith]

/-- Containment is preserved by extending the text on the right. -/
theorem containsSub_append_left :
    ∀ (pat u v : List Char), listContainsSub pat u = true →
      listContainsSub pat (u ++ v) = true
  | pat, [], v, h => by
    have : pat = [] := by
      cases pat with
      | nil => rfl
      | cons p ps => simp [listContainsSub, listStartsWith] at h
    subst this; exact containsSub_nil v
  | pat, c :: cs, v, h => by
    simp only [listContainsSub, Bool.or_eq_true] at h
    rcases h with h | h
    · simp only [List.cons_append, listContainsSub, Bool.or_eq_true]
      exact Or.inl (by simpa using startsWith_append_of pat (c :: cs) v h)
    · simp only [List.cons_append, listContainsSub, Bool.or_eq_true]
      exact Or.inr (containsSub_append_left pat cs v h)

/-- A non-empty pattern is not contained in the empty text. -/
theorem containsSub_nil_of_ne {pat : List Char} (h : pat ≠ []) :
    listContainsSub pat [] = false := by
  cases pat with
  | nil => exact absurd rfl h
  | cons p ps => simp [listContainsSub, listStartsWith]

/-- Dropping the length of the left part of an append yields the right part. -/
theorem drop_length_append : ∀ (u v : List Char), (u ++ v).drop u.length = v
  | [], v => rfl
  | c :: u, v => by simp [drop_length_append u v]

/-! ## Lemmas about `replaceFuel` -/

/-- With no fuel the scan returns its input. -/
theorem replaceFuel_zero (search repl s : List Char) :
    replaceFuel search repl 0 s = s := by
  cases s <;> rfl

/-- The scan of an empty text is empty. -/
theorem replaceFuel_nil (search repl : List Char) (fuel : Nat) :
    replaceFuel search repl fuel [] = [] := by
  cases fuel <;> rfl

/-- Any two sufficient fuel amounts give the same result. -/
theorem replaceFuel_fuel_le (search repl : List Char) :
    ∀ fuel₁ fuel₂ s, s.length ≤ fuel₁ → s.length ≤ fuel₂ →
      replaceFuel search repl fuel₁ s = replaceFuel search repl fuel₂ s := by
  intro fuel₁
  induction fuel₁ with
  | zero =>
    intro fuel₂ s h1 _
    have hs : s = [] := List.length_eq_zero.mp (Nat.le_zero.mp h1)
    subst hs
    simp [replaceFuel_nil]
  | succ f ih =>
    intro fuel₂ s h1 h2
    cases s with
    | nil => simp [replaceFuel_nil]
    | cons c rest =>
      cases fuel₂ with
      | zero => simp at h2
      | succ g =>
        have h1' : rest.length ≤ f := by simp at h1; omega
        have h2' : rest.length ≤ g := by simp at h2; omega
        cases hm : listStartsWith search (c :: rest) with
        | true =>
          simp only [replaceFuel, hm, if_true]
          congr 1
          exact ih g _ (by simp [List.length_drop]; omega) (by simp [List.length_drop]; omega)
        | false =>
          simp only [replaceFuel, hm, Bool.false_eq_true, if_false]
          congr 1
          exact ih g rest h1' h2'

/-- A text without any occurrence of the search string is left unchanged. -/
theorem replaceFuel_of_not_contains (search repl : List Char) :
    ∀ fuel s, listContainsSub search s = false → replaceFuel search repl fuel s = s := by
  intro fuel
  induction fuel with
  | zero => intro s _; exact replaceFuel_zero search repl s
  | succ f ih =>
    intro s h
    cases s with
    | nil => rfl
    | cons c rest =>
      have h' : listStartsWith search (c :: rest) = false ∧
          listContainsSub search rest = false := by
        cases hx : listStartsWith search (c :: rest) with
        | true => rw [listContainsSub, hx] at h; simp at h
        | false =>
          rw [listContainsSub, hx] at h
          simp at h
          exact ⟨rfl, h⟩
      simp [replaceFuel, h'.1, ih rest h'.2]

/-- `str.replace` on a text without any occurrence is the identity. -/
theorem pyReplace_of_not_contains (search repl s : List Char)
    (h : listContainsSub search s = false) : pyReplace search repl s = s :=
  replaceFuel_of_not_contains search repl s.length s h

/-- Replacing occurrences of a search string that avoids a character `a` by a
replacement that also avoids `a` keeps the number of `a`s (hence, for
`a = newline`, the number of lines). -/
theorem replaceFuel_count (a : Char) (search repl : List Char) (hne : search ≠ [])
    (hs : a ∉ search) (hr : a ∉ repl) :
    ∀ fuel s, (replaceFuel search repl fuel s).count a = s.count a := by
  intro fuel
  induction fuel with
  | zero => intro s; rw [replaceFuel_zero]
  | succ f ih =>
    intro s
    cases s with
    | nil => rfl
    | cons c rest =>
      cases hm : listStartsWith search (c :: rest) with
      | false => simp [replaceFuel, hm, List.count_cons, ih rest]
      | true =>
        obtain ⟨p, ps, rfl⟩ : ∃ p ps, search = p :: ps := by
          cases search with
          | nil => exact absurd rfl hne
          | cons p ps => exact ⟨p, ps, rfl⟩
        have hsplit := startsWith_append_drop (p :: ps) (c :: rest) hm
        have h2 : (c :: rest).count a = (rest.drop ps.length).count a := by
          conv_lhs => rw [← hsplit]
          rw [List.count_append, List.count_eq_zero.mpr hs]
          simp [List.drop_succ_cons]
        have h1 : replaceFuel (p :: ps) repl (f + 1) (c :: rest) =
            repl ++ replaceFuel (p :: ps) repl f (rest.drop ps.length) := by
          simp [replaceFuel, hm]
        rw [h1, List.count_append, List.count_eq_zero.mpr hr, ih, h2]
        omega

/-- The scan, given a text split as `pre ++ search ++ post` where no occurrence
of `search` starts inside `pre`, keeps `pre`, replaces the shown occurrence,
and continues on `post`. -/
theorem replaceFuel_split (search repl : List Char) (hne : search ≠ []) :
    ∀ pre post fuel,
      (∀ i, i < pre.length →
        listStartsWith search (List.drop i (pre ++ (search ++ post))) = false) →
      (pre ++ (search ++ post)).length ≤ fuel →
      replaceFuel search repl fuel (pre ++ (search ++ post)) =
        pre ++ (repl ++ replaceFuel search repl (fuel - (pre.length + 1)) post) := by
  intro pre
  induction pre with
  | nil =>
    intro post fuel _ hlen
    obtain ⟨p, ps, rfl⟩ : ∃ p ps, search = p :: ps := by
      cases search with
      | nil => exact absurd rfl hne
      | cons p ps => exact ⟨p, ps, rfl⟩
    cases fuel with
    | zero => simp at hlen
    | succ f =>
      have hm : listStartsWith (p :: ps) (p :: (ps ++ post)) = true := by
        have := startsWith_append_of (p :: ps) (p :: ps) post (startsWith_refl (p :: ps))
        simpa using this
      have hstep : replaceFuel (p :: ps) repl (f + 1) (p :: (ps ++ post)) =
          repl ++ replaceFuel (p :: ps) repl f post := by
        simp [replaceFuel, hm, drop_length_append]
      rw [show ([] : List Char) ++ ((p :: ps) ++ post) = p :: (ps ++ post) from by simp,
        hstep]
      simp
  | cons d pre' ih =>
    intro post fuel hscan hlen
    cases fuel with
    | zero =>
      simp [List.length_append] at hlen
    | succ f =>
      have h0 : listStartsWith search (d :: (pre' ++ (search ++ post))) = false := by
        have := hscan 0 (by simp)
        simpa using this
      have hlen' : (pre' ++ (search ++ post)).length ≤ f := by
        simp [List.length_append] at hlen ⊢; omega
      have hscan' : ∀ i, i < pre'.length →
          listStartsWith search (List.drop i (pre' ++ (search ++ post))) = false := by
        intro i hi
        have := hscan (i + 1) (by simp; omega)
        simpa [List.drop_succ_cons] using this
      have hstep : replaceFuel search repl (f + 1) (d :: (pre' ++ (search ++ post))) =
          d :: replaceFuel search repl f (pre' ++ (search ++ post)) := by
        simp [replaceFuel, h0]
      rw [show (d :: pre') ++ (search ++ post) = d :: (pre' ++ (search ++ post)) from by
          simp,
        hstep, ih post f hscan' hlen']
      simp [List.length_cons, Nat.succ_sub_succ_eq_sub]

/-- `str.replace` on `pre ++ search ++ post` with no occurrence starting inside
`pre`: keep `pre`, replace the shown occurrence, recurse on `post`. -/
theorem pyReplace_split (search repl : List Char) (hne : search ≠ [])
    (pre post : List Char)
    (hscan : ∀ i, i < pre.length →
      listStartsWith search (List.drop i (pre ++ (search ++ post))) = false) :
    pyReplace search repl (pre ++ (search ++ post)) =
      pre ++ (repl ++ pyReplace search repl post) := by
  unfold pyReplace
  rw [replaceFuel_split search repl hne pre post _ hscan (le_refl _)]
  have hpos : 0 < search.length := List.length_pos.mpr hne
  congr 2
  apply replaceFuel_fuel_le
  · simp [List.length_append]; omega
  · exact le_refl _

/-- When the replacement contains `sub` and the text contains the search
string, the scan's output contains `sub`. -/
theorem contains_replaceFuel (search repl sub : List Char) (hne : search ≠ [])
    (hsub : listContainsSub sub repl = true) :
    ∀ fuel s, s.length ≤ fuel → listContainsSub search s = true →
      listContainsSub sub (replaceFuel search repl fuel s) = true := by
  intro fuel
  induction fuel with
  | zero =>
    intro s hl hc
    have hs : s = [] := List.length_eq_zero.mp (Nat.le_zero.mp hl)
    subst hs
    rw [containsSub_nil_of_ne hne] at hc
    simp at hc
  | succ f ih =>
    intro s hl hc
    cases s with
    | nil => rw [containsSub_nil_of_ne hne] at hc; simp at hc
    | cons c rest =>
      cases hm : listStartsWith search (c :: rest) with
      | true =>
        have hstep : replaceFuel search repl (f + 1) (c :: rest) =
            repl ++ replaceFuel search repl f (rest.drop (search.length - 1)) := by
          simp [replaceFuel, hm]
        rw [hstep]
        exact containsSub_append_left sub repl _ hsub
      | false =>
        have hrest : listContainsSub search rest = true := by
          rw [listContainsSub, hm] at hc
          simpa using hc
        have hstep : replaceFuel search repl (f + 1) (c :: rest) =
            c :: replaceFuel search repl f rest := by
          simp [replaceFuel, hm]
        rw [hstep]
        rw [listContainsSub, ih rest (by simp at hl; omega) hrest]
        simp

/-- If the replacement's first character avoids the pattern `t`, a match of `t`
at the start of the scan's output forces a match of `t` at the start of the
input. -/
theorem startsWith_of_startsWith_replaceFuel (search : List Char) (r₁ : Char)
    (rs : List Char) :
    ∀ fuel s t, r₁ ∉ t →
      listStartsWith t (replaceFuel search (r₁ :: rs) fuel s) = true →
      listStartsWith t s = true := by
  intro fuel
  induction fuel with
  | zero =>
    intro s t _ h
    rwa [replaceFuel_zero] at h
  | succ f ih =>
    intro s t ht h
    cases s with
    | nil => rwa [replaceFuel_nil] at h
    | cons c rest =>
      cases hm : listStartsWith search (c :: rest) with
      | true =>
        rw [show replaceFuel search (r₁ :: rs) (f + 1) (c :: rest) =
            (r₁ :: rs) ++ replaceFuel search (r₁ :: rs) f
              (rest.drop (search.length - 1)) from by simp [replaceFuel, hm]] at h
        cases t with
        | nil => rfl
        | cons d t' =>
          simp only [List.cons_append, listStartsWith, Bool.and_eq_true,
            beq_iff_eq] at h
          exact absurd (by rw [← h.1]; exact List.mem_cons_self d t') ht
      | false =>
        rw [show replaceFuel search (r₁ :: rs) (f + 1) (c :: rest) =
            c :: replaceFuel search (r₁ :: rs) f rest from by
          simp [replaceFuel, hm]] at h
        cases t with
        | nil => rfl
        | cons d t' =>
          simp only [listStartsWith, Bool.and_eq_true, beq_iff_eq] at h ⊢
          exact ⟨h.1, ih rest t' (fun hmem => ht (List.mem_cons_of_mem d hmem)) h.2⟩

/-- The scan walks over a stretch of text that avoids the search string's first
character without changing it. -/
theorem replaceFuel_append_noStart (p₁ : Char) (ps repl : List Char) :
    ∀ u X fuel, p₁ ∉ u → u.length + X.length ≤ fuel →
      replaceFuel (p₁ :: ps) repl fuel (u ++ X) =
        u ++ replaceFuel (p₁ :: ps) repl (fuel - u.length) X := by
  intro u
  induction u with
  | nil => intro X fuel _ _; simp
  | cons d u' ih =>
    intro X fuel hmem hlen
    cases fuel with
    | zero => simp at hlen
    | succ f =>
      have hd : listStartsWith (p₁ :: ps) (d :: (u' ++ X)) = false := by
        have hne : (p₁ == d) = false := by
          simp only [beq_eq_false_iff_ne]
          intro h
          exact hmem (by rw [h]; exact List.mem_cons_self d u')
        simp [listStartsWith, hne]
      have hstep : replaceFuel (p₁ :: ps) repl (f + 1) (d :: (u' ++ X)) =
          d :: replaceFuel (p₁ :: ps) repl f (u' ++ X) := by
        simp [replaceFuel, hd]
      rw [show (d :: u') ++ X = d :: (u' ++ X) from by simp, hstep,
        ih X f (fun hm => hmem (List.mem_cons_of_mem d hm)) (by simp at hlen ⊢; omega)]
      simp [List.length_cons, Nat.succ_sub_succ_eq_sub]

/-- The scan's output is a fixed point of the scan, provided the search string
does not begin with any replacement character boundary: precisely, the search's
first character is not in the replacement and the replacement's first character
is not in the search. -/
theorem replaceFuel_stable (p₁ : Char) (ps : List Char) (r₁ : Char) (rs : List Char)
    (h₁ : p₁ ∉ r₁ :: rs) (h₂ : r₁ ∉ p₁ :: ps) :
    ∀ fuel s fuel₂, s.length ≤ fuel →
      (replaceFuel (p₁ :: ps) (r₁ :: rs) fuel s).length ≤ fuel₂ →
      replaceFuel (p₁ :: ps) (r₁ :: rs) fuel₂
          (replaceFuel (p₁ :: ps) (r₁ :: rs) fuel s) =
        replaceFuel (p₁ :: ps) (r₁ :: rs) fuel s := by
  intro fuel
  induction fuel with
  | zero =>
    intro s fuel₂ hl _
    have hs : s = [] := List.length_eq_zero.mp (Nat.le_zero.mp hl)
    subst hs
    simp [replaceFuel_nil]
  | succ f ih =>
    intro s fuel₂ hl hl₂
    cases s with
    | nil => simp [replaceFuel_nil]
    | cons c rest =>
      cases hm : listStartsWith (p₁ :: ps) (c :: rest) with
      | true =>
        have heq : replaceFuel (p₁ :: ps) (r₁ :: rs) (f + 1) (c :: rest) =
            (r₁ :: rs) ++ replaceFuel (p₁ :: ps) (r₁ :: rs) f
              (rest.drop ps.length) := by
          simp [replaceFuel, hm]
        rw [heq] at hl₂ ⊢
        simp only [List.length_append, List.length_cons] at hl₂
        have hl' : rest.length ≤ f := by simp at hl; omega
        rw [replaceFuel_append_noStart p₁ ps (r₁ :: rs) (r₁ :: rs) _ fuel₂ h₁
          (by simp; omega)]
        congr 1
        exact ih (rest.drop ps.length) (fuel₂ - (r₁ :: rs).length)
          (by simp [List.length_drop]; omega) (by simp; omega)
      | false =>
        have heq : replaceFuel (p₁ :: ps) (r₁ :: rs) (f + 1) (c :: rest) =
            c :: replaceFuel (p₁ :: ps) (r₁ :: rs) f rest := by
          simp [replaceFuel, hm]
        rw [heq] at hl₂ ⊢
        cases fuel₂ with
        | zero => simp at hl₂
        | succ g =>
          have hnm : listStartsWith (p₁ :: ps)
              (c :: replaceFuel (p₁ :: ps) (r₁ :: rs) f rest) = false := by
            cases hx : listStartsWith (p₁ :: ps)
                (c :: replaceFuel (p₁ :: ps) (r₁ :: rs) f rest) with
            | false => rfl
            | true =>
              exfalso
              simp only [listStartsWith, Bool.and_eq_true, beq_iff_eq] at hx
              have hps : listStartsWith ps rest = true :=
                startsWith_of_startsWith_replaceFuel (p₁ :: ps) r₁ rs f rest ps
                  (fun hmem => h₂ (List.mem_cons_of_mem p₁ hmem)) hx.2
              rw [show listStartsWith (p₁ :: ps) (c :: rest) =
                  ((p₁ == c) && listStartsWith ps rest) from rfl, hps] at hm
              simp [hx.1] at hm
          have hstep : replaceFuel (p₁ :: ps) (r₁ :: rs) (g + 1)
              (c :: replaceFuel (p₁ :: ps) (r₁ :: rs) f rest) =
              c :: replaceFuel (p₁ :: ps) (r₁ :: rs) g
                (replaceFuel (p₁ :: ps) (r₁ :: rs) f rest) := by
            simp [replaceFuel, hnm]
          rw [hstep]
          congr 1
          exact ih rest g (by simp at hl; omega) (by simp at hl₂; omega)

/-- Idempotence of `str.replace` when the search's first character does not
occur in the replacement and the replacement's first character does not occur
in the search. -/
theorem pyReplace_idem_of_heads (p₁ : Char) (ps : List Char) (r₁ : Char)
    (rs : List Char) (h₁ : p₁ ∉ r₁ :: rs) (h₂ : r₁ ∉ p₁ :: ps) (s : List Char) :
    pyReplace (p₁ :: ps) (r₁ :: rs) (pyReplace (p₁ :: ps) (r₁ :: rs) s) =
      pyReplace (p₁ :: ps) (r₁ :: rs) s := by
  unfold pyReplace
  exact replaceFuel_stable p₁ ps r₁ rs h₁ h₂ s.length s _ (le_refl _) (le_refl _)

/-- Idempotence of a substring-guarded replace whose replacement contains the
guard string. -/
theorem guardedReplace_idem (guard search repl : List Char) (hne : search ≠ [])
    (hg : listContainsSub guard repl = true) (s : List Char) :
    guardedReplace guard search repl (guardedReplace guard search repl s) =
      guardedReplace guard search repl s := by
  cases hc : listContainsSub guard s with
  | true => simp [guardedReplace, hc]
  | false =>
    have e : guardedReplace guard search repl s = pyReplace search repl s := by
      simp [guardedReplace, hc]
    rw [e]
    cases hs : listContainsSub search s with
    | false =>
      have e2 : pyReplace search repl s = s := pyReplace_of_not_contains search repl s hs
      rw [e2]
      simp [guardedReplace, hc, e2]
    | true =>
      have hg2 : listContainsSub guard (pyReplace search repl s) = true := by
        unfold pyReplace
        exact contains_replaceFuel search repl guard hne hg s.length s (le_refl _) hs
      simp [guardedReplace, hg2]

/-! ## Case analysis helpers for the `.env` line patch -/

/-- A Bool known to be false is not true. -/
theorem bool_ne_true {b : Bool} (h : b = false) : ¬ (b = true) :=
  fun ht => Bool.false_ne_true (h ▸ ht)

/-- Each line produced by the `.env` patch is a fixed point of the patch: every
rewritten line is one of the six fixed literals, themselves invariant, and a
passthrough line keeps failing the same rules. -/
theorem updateEnvLine_idem (line : List Char) :
    updateEnvLine (updateEnvLine line) = updateEnvLine line := by
  cases h1 : listStartsWith "DB_CONNECTION".toList (pyStrip line) with
  | true =>
    cases h1a : (listContainsSub "=mysql".toList (pyStrip line)
        || listContainsSub "=sqlite".toList (pyStrip line)) with
    | true =>
      have e : updateEnvLine line = "DB_CONNECTION=pgsql".toList := by
        unfold updateEnvLine
        rw [if_pos h1, if_pos h1a]
      rw [e]; decide
    | false =>
      have e : updateEnvLine line = line := by
        unfold updateEnvLine
        rw [if_pos h1, if_neg (bool_ne_true h1a)]
      rw [e]; exact e
  | false =>
  cases h2 : (listStartsWith "#".toList (pyStrip line)
      && listContainsSub "DB_HOST".toList (pyStrip line)) with
  | true =>
    have e : updateEnvLine line = "DB_HOST=pgsql".toList := by
      unfold updateEnvLine
      rw [if_neg (bool_ne_true h1), if_pos h2]
    rw [e]; decide
  | false =>
  cases h3 : (listStartsWith "#".toList (pyStrip line)
      && listContainsSub "DB_PORT".toList (pyStrip line)) with
  | true =>
    have e : updateEnvLine line = "DB_PORT=5432".toList := by
      unfold updateEnvLine
      rw [if_neg (bool_ne_true h1), if_neg (bool_ne_true h2), if_pos h3]
    rw [e]; decide
  | false =>
  cases h4 : (listStartsWith "#".toList (pyStrip line)
      && listContainsSub "DB_DATABASE".toList (pyStrip line)) with
  | true =>
    have e : updateEnvLine line = "DB_DATABASE=laravel".toList := by
      unfold updateEnvLine
      rw [if_neg (bool_ne_true h1), if_neg (bool_ne_true h2), if_neg (bool_ne_true h3), if_pos h4]
    rw [e]; decide
  | false =>
  cases h5 : (listStartsWith "#".toList (pyStrip line)
      && listContainsSub "DB_USERNAME".toList (pyStrip line)) with
  | true =>
    have e : updateEnvLine line = "DB_USERNAME=sail".toList := by
      unfold updateEnvLine
      rw [if_neg (bool_ne_true h1), if_neg (bool_ne_true h2), if_neg (bool_ne_true h3), if_neg (bool_ne_true h4), if_pos h5]
    rw [e]; decide
  | false =>
  cases h6 : (listStartsWith "#".toList (pyStrip line)
      && listContainsSub "DB_PASSWORD".toList (pyStrip line)) with
  | true =>
    have e : updateEnvLine line = "DB_PASSWORD=password".toList := by
      unfold updateEnvLine
      rw [if_neg (bool_ne_true h1), if_neg (bool_ne_true h2), if_neg (bool_ne_true h3), if_neg (bool_ne_true h4), if_neg (bool_ne_true h5), if_pos h6]
    rw [e]; decide
  | false =>
  cases h7 : listStartsWith "DB_HOST=".toList (pyStrip line) with
  | true =>
    have e : updateEnvLine line = "DB_HOST=pgsql".toList := by
      unfold updateEnvLine
      rw [if_neg (bool_ne_true h1), if_neg (bool_ne_true h2), if_neg (bool_ne_true h3), if_neg (bool_ne_true h4), if_neg (bool_ne_true h5), if_neg (bool_ne_true h6), if_pos h7]
    rw [e]; decide
  | false =>
  cases h8 : listStartsWith "DB_PORT=".toList (pyStrip line) with
  | true =>
    have e : updateEnvLine line = "DB_PORT=5432".toList := by
      unfold updateEnvLine
      rw [if_neg (bool_ne_true h1), if_neg (bool_ne_true h2), if_neg (bool_ne_true h3), if_neg (bool_ne_true h4), if_neg (bool_ne_true h5), if_neg (bool_ne_true h6), if_neg (bool_ne_true h7), if_pos h8]
    rw [e]; decide
  | false =>
  cases h9 : listStartsWith "DB_DATABASE=".toList (pyStrip line) with
  | true =>
    have e : updateEnvLine line = "DB_DATABASE=laravel".toList := by
      unfold updateEnvLine
      rw [if_neg (bool_ne_true h1), if_neg (bool_ne_true h2), if_neg (bool_ne_true h3), if_neg (bool_ne_true h4), if_neg (bool_ne_true h5), if_neg (bool_ne_true h6), if_neg (bool_ne_true h7), if_neg (bool_ne_true h8), if_pos h9]
    rw [e]; decide
  | false =>
  cases h10 : listStartsWith "DB_USERNAME=".toList (pyStrip line) with
  | true =>
    have e : updateEnvLine line = "DB_USERNAME=sail".toList := by
      unfold updateEnvLine
      rw [if_neg (bool_ne_true h1), if_neg (bool_ne_true h2), if_neg (bool_ne_true h3), if_neg (bool_ne_true h4), if_neg (bool_ne_true h5), if_neg (bool_ne_true h6), if_neg (bool_ne_true h7), if_neg (bool_ne_true h8), if_neg (bool_ne_true h9), if_pos h10]
    rw [e]; decide
  | false =>
  cases h11 : listStartsWith "DB_PASSWORD=".toList (pyStrip line) with
  | true =>
    have e : updateEnvLine line = "DB_PASSWORD=password".toList := by
      unfold updateEnvLine
      rw [if_neg (bool_ne_true h1), if_neg (bool_ne_true h2), if_neg (bool_ne_true h3), if_neg (bool_ne_true h4), if_neg (bool_ne_true h5), if_neg (bool_ne_true h6), if_neg (bool_ne_true h7), if_neg (bool_ne_true h8), if_neg (bool_ne_true h9), if_neg (bool_ne_true h10), if_pos h11]
    rw [e]; decide
  | false =>
    have e : updateEnvLine line = line := by
      unfold updateEnvLine
      rw [if_neg (bool_ne_true h1), if_neg (bool_ne_true h2), if_neg (bool_ne_true h3), if_neg (bool_ne_true h4), if_neg (bool_ne_true h5), if_neg (bool_ne_true h6), if_neg (bool_ne_true h7), if_neg (bool_ne_true h8), if_neg (bool_ne_true h9), if_neg (bool_ne_true h10), if_neg (bool_ne_true h11)]
    rw [e]; exact e

/-- No line produced by the `.env` patch is a commented line mentioning
`DB_PORT`. -/
theorem updateEnvLine_no_commented_dbport (line : List Char) :
    listStartsWith "#".toList (pyStrip (updateEnvLine line)) = true →
    listContainsSub "DB_PORT".toList (pyStrip (updateEnvLine line)) = false := by
  intro hcomment
  cases h1 : listStartsWith "DB_CONNECTION".toList (pyStrip line) with
  | true =>
    cases h1a : (listContainsSub "=mysql".toList (pyStrip line)
        || listContainsSub "=sqlite".toList (pyStrip line)) with
    | true =>
      have e : updateEnvLine line = "DB_CONNECTION=pgsql".toList := by
        unfold updateEnvLine
        rw [if_pos h1, if_pos h1a]
      rw [e] at hcomment
      exact absurd hcomment (by decide)
    | false =>
      have e : updateEnvLine line = line := by
        unfold updateEnvLine
        rw [if_pos h1, if_neg (bool_ne_true h1a)]
      rw [e] at hcomment
      have hcl : listStartsWith "#".toList (pyStrip line) = false :=
        startsWith_clash (p := "DB_CONNECTION".toList) (q := "#".toList)
          (by decide) h1
      rw [hcl] at hcomment
      simp at hcomment
  | false =>
  cases h2 : (listStartsWith "#".toList (pyStrip line)
      && listContainsSub "DB_HOST".toList (pyStrip line)) with
  | true =>
    have e : updateEnvLine line = "DB_HOST=pgsql".toList := by
      unfold updateEnvLine
      rw [if_neg (bool_ne_true h1), if_pos h2]
    rw [e] at hcomment
    exact absurd hcomment (by decide)
  | false =>
  cases h3 : (listStartsWith "#".toList (pyStrip line)
      && listContainsSub "DB_PORT".toList (pyStrip line)) with
  | true =>
    have e : updateEnvLine line = "DB_PORT=5432".toList := by
      unfold updateEnvLine
      rw [if_neg (bool_ne_true h1), if_neg (bool_ne_true h2), if_pos h3]
    rw [e] at hcomment
    exact absurd hcomment (by decide)
  | false =>
  cases h4 : (listStartsWith "#".toList (pyStrip line)
      && listContainsSub "DB_DATABASE".toList (pyStrip line)) with
  | true =>
    have e : updateEnvLine line = "DB_DATABASE=laravel".toList := by
      unfold updateEnvLine
      rw [if_neg (bool_ne_true h1), if_neg (bool_ne_true h2), if_neg (bool_ne_true h3), if_pos h4]
    rw [e] at hcomment
    exact absurd hcomment (by decide)
  | false =>
  cases h5 : (listStartsWith "#".toList (pyStrip line)
      && listContainsSub "DB_USERNAME".toList (pyStrip line)) with
  | true =>
    have e : updateEnvLine line = "DB_USERNAME=sail".toList := by
      unfold updateEnvLine
      rw [if_neg (bool_ne_true h1), if_neg (bool_ne_true h2), if_neg (bool_ne_true h3), if_neg (bool_ne_true h4), if_pos h5]
    rw [e] at hcomment
    exact absurd hcomment (by decide)
  | false =>
  cases h6 : (listStartsWith "#".toList (pyStrip line)
      && listContainsSub "DB_PASSWORD".toList (pyStrip line)) with
  | true =>
    have e : updateEnvLine line = "DB_PASSWORD=password".toList := by
      unfold updateEnvLine
      rw [if_neg (bool_ne_true h1), if_neg (bool_ne_true h2), if_neg (bool_ne_true h3), if_neg (bool_ne_true h4), if_neg (bool_ne_true h5), if_pos h6]
    rw [e] at hcomment
    exact absurd hcomment (by decide)
  | false =>
  cases h7 : listStartsWith "DB_HOST=".toList (pyStrip line) with
  | true =>
    have e : updateEnvLine line = "DB_HOST=pgsql".toList := by
      unfold updateEnvLine
      rw [if_neg (bool_ne_true h1), if_neg (bool_ne_true h2), if_neg (bool_ne_true h3), if_neg (bool_ne_true h4), if_neg (bool_ne_true h5), if_neg (bool_ne_true h6), if_pos h7]
    rw [e] at hcomment
    exact absurd hcomment (by decide)
  | false =>
  cases h8 : listStartsWith "DB_PORT=".toList (pyStrip line) with
  | true =>
    have e : updateEnvLine line = "DB_PORT=5432".toList := by
      unfold updateEnvLine
      rw [if_neg (bool_ne_true h1), if_neg (bool_ne_true h2), if_neg (bool_ne_true h3), if_neg (bool_ne_true h4), if_neg (bool_ne_true h5), if_neg (bool_ne_true h6), if_neg (bool_ne_true h7), if_pos h8]
    rw [e] at hcomment
    exact absurd hcomment (by decide)
  | false =>
  cases h9 : listStartsWith "DB_DATABASE=".toList (pyStrip line) with
  | true =>
    have e : updateEnvLine line = "DB_DATABASE=laravel".toList := by
      unfold updateEnvLine
      rw [if_neg (bool_ne_true h1), if_neg (bool_ne_true h2), if_neg (bool_ne_true h3), if_neg (bool_ne_true h4), if_neg (bool_ne_true h5), if_neg (bool_ne_true h6), if_neg (bool_ne_true h7), if_neg (bool_ne_true h8), if_pos h9]
    rw [e] at hcomment
    exact absurd hcomment (by decide)
  | false =>
  cases h10 : listStartsWith "DB_USERNAME=".toList (pyStrip line) with
  | true =>
    have e : updateEnvLine line = "DB_USERNAME=sail".toList := by
      unfold updateEnvLine
      rw [if_neg (bool_ne_true h1), if_neg (bool_ne_true h2), if_neg (bool_ne_true h3), if_neg (bool_ne_true h4), if_neg (bool_ne_true h5), if_neg (bool_ne_true h6), if_neg (bool_ne_true h7), if_neg (bool_ne_true h8), if_neg (bool_ne_true h9), if_pos h10]
    rw [e] at hcomment
    exact absurd hcomment (by decide)
  | false =>
  cases h11 : listStartsWith "DB_PASSWORD=".toList (pyStrip line) with
  | true =>
    have e : updateEnvLine line = "DB_PASSWORD=password".toList := by
      unfold updateEnvLine
      rw [if_neg (bool_ne_true h1), if_neg (bool_ne_true h2), if_neg (bool_ne_true h3), if_neg (bool_ne_true h4), if_neg (bool_ne_true h5), if_neg (bool_ne_true h6), if_neg (bool_ne_true h7), if_neg (bool_ne_true h8), if_neg (bool_ne_true h9), if_neg (bool_ne_true h10), if_pos h11]
    rw [e] at hcomment
    exact absurd hcomment (by decide)
  | false =>
    have e : updateEnvLine line = line := by
      unfold updateEnvLine
      rw [if_neg (bool_ne_true h1), if_neg (bool_ne_true h2), if_neg (bool_ne_true h3), if_neg (bool_ne_true h4), if_neg (bool_ne_true h5), if_neg (bool_ne_true h6), if_neg (bool_ne_true h7), if_neg (bool_ne_true h8), if_neg (bool_ne_true h9), if_neg (bool_ne_true h10), if_neg (bool_ne_true h11)]
    rw [e] at hcomment ⊢
    cases hx : listContainsSub "DB_PORT".toList (pyStrip line) with
    | false => rfl
    | true => rw [hcomment, hx] at h3; simp at h3

/-! ## Claims about the `.env` patch -/

/-- C1 (amended): in the environment-file patch, a line whose trimmed content
starts with `DB_CONNECTION` is rewritten to exactly `DB_CONNECTION=pgsql` when
it contains the substring `=mysql` or `=sqlite`, and is left exactly unchanged
otherwise.  (The source tests substring containment of `=mysql` / `=sqlite`,
not equality of the parsed value.) -/
theorem claim1_correct (line : List Char)
    (h : listStartsWith "DB_CONNECTION".toList (pyStrip line) = true) :
    ((listContainsSub "=mysql".toList (pyStrip line)
        || listContainsSub "=sqlite".toList (pyStrip line)) = true →
      updateEnvLine line = "DB_CONNECTION=pgsql".toList)
  ∧ ((listContainsSub "=mysql".toList (pyStrip line)
        || listContainsSub "=sqlite".toList (pyStrip line)) = false →
      updateEnvLine line = line) := by
  constructor
  · intro hc
    unfold updateEnvLine
    rw [if_pos h, if_pos hc]
  · intro hc
    unfold updateEnvLine
    rw [if_pos h, if_neg (bool_ne_true hc)]

/-- C1 counterexample: the line `DB_CONNECTION=mysql2` has value `mysql2`,
which is neither `mysql` nor `sqlite`, yet the patch rewrites the line (to
`DB_CONNECTION=pgsql`) instead of leaving it unchanged, because the code tests
`"=mysql" in stripped` rather than the value. -/
theorem claim1_counterexample :
    listStartsWith "DB_CONNECTION".toList (pyStrip "DB_CONNECTION=mysql2".toList) = true
  ∧ specLineValue "DB_CONNECTION=mysql2".toList ≠ "mysql".toList
  ∧ specLineValue "DB_CONNECTION=mysql2".toList ≠ "sqlite".toList
  ∧ updateEnvLine "DB_CONNECTION=mysql2".toList ≠ "DB_CONNECTION=mysql2".toList := by
  decide

/-- C1 witness: the amended theorem applied to `DB_CONNECTION=mysql` (rewritten)
and `DB_CONNECTION=pgsql` (left unchanged). -/
theorem claim1_witness :
    updateEnvLine "DB_CONNECTION=mysql".toList = "DB_CONNECTION=pgsql".toList
  ∧ updateEnvLine "DB_CONNECTION=pgsql".toList = "DB_CONNECTION=pgsql".toList :=
  ⟨(claim1_correct "DB_CONNECTION=mysql".toList (by decide)).1 (by decide),
   (claim1_correct "DB_CONNECTION=pgsql".toList (by decide)).2 (by decide)⟩

/-- C2: every commented line mentioning a database key is rewritten to the
uncommented key with its fixed value, following the source's rule priority
(`DB_HOST` first, then `DB_PORT`, `DB_DATABASE`, `DB_USERNAME`, `DB_PASSWORD`):
a commented `DB_HOST` line always becomes exactly `DB_HOST=pgsql` (whether
written `#DB_HOST=...` or `# DB_HOST=...`), a commented line mentioning a later
key but none of the earlier ones becomes that key's setting, and a file
containing `# DB_PORT=3306` afterwards contains `DB_PORT=5432` and no
commented line mentioning `DB_PORT`. -/
theorem claim2_correct :
    (∀ line : List Char, listStartsWith "#".toList (pyStrip line) = true →
      listContainsSub "DB_HOST".toList (pyStrip line) = true →
      updateEnvLine line = "DB_HOST=pgsql".toList)
  ∧ (updateEnvLine "#DB_HOST=127.0.0.1".toList = "DB_HOST=pgsql".toList
      ∧ updateEnvLine "# DB_HOST=127.0.0.1".toList = "DB_HOST=pgsql".toList)
  ∧ (∀ line : List Char, listStartsWith "#".toList (pyStrip line) = true →
      listContainsSub "DB_PORT".toList (pyStrip line) = true →
      listContainsSub "DB_HOST".toList (pyStrip line) = false →
      updateEnvLine line = "DB_PORT=5432".toList)
  ∧ (∀ line : List Char, listStartsWith "#".toList (pyStrip line) = true →
      listContainsSub "DB_DATABASE".toList (pyStrip line) = true →
      listContainsSub "DB_HOST".toList (pyStrip line) = false →
      listContainsSub "DB_PORT".toList (pyStrip line) = false →
      updateEnvLine line = "DB_DATABASE=laravel".toList)
  ∧ (∀ line : List Char, listStartsWith "#".toList (pyStrip line) = true →
      listContainsSub "DB_USERNAME".toList (pyStrip line) = true →
      listContainsSub "DB_HOST".toList (pyStrip line) = false →
      listContainsSub "DB_PORT".toList (pyStrip line) = false →
      listContainsSub "DB_DATABASE".toList (pyStrip line) = false →
      updateEnvLine line = "DB_USERNAME=sail".toList)
  ∧ (∀ line : List Char, listStartsWith "#".toList (pyStrip line) = true →
      listContainsSub "DB_PASSWORD".toList (pyStrip line) = true →
      listContainsSub "DB_HOST".toList (pyStrip line) = false →
      listContainsSub "DB_PORT".toList (pyStrip line) = false →
      listContainsSub "DB_DATABASE".toList (pyStrip line) = false →
      listContainsSub "DB_USERNAME".toList (pyStrip line) = false →
      updateEnvLine line = "DB_PASSWORD=password".toList)
  ∧ (∀ lines : List (List Char), "# DB_PORT=3306".toList ∈ lines →
      ("DB_PORT=5432".toList ∈ updateEnvFile lines
        ∧ ∀ l ∈ updateEnvFile lines,
            listStartsWith "#".toList (pyStrip l) = true →
            listContainsSub "DB_PORT".toList (pyStrip l) = false)) := by
  refine ⟨?_, ⟨by decide, by decide⟩, ?_, ?_, ?_, ?_, ?_⟩
  · intro line hstart hcont
    have hb1 : listStartsWith "DB_CONNECTION".toList (pyStrip line) = false :=
      startsWith_clash (p := "#".toList) (q := "DB_CONNECTION".toList)
        (by decide) hstart
    unfold updateEnvLine
    rw [if_neg (bool_ne_true hb1),
      if_pos (show (listStartsWith "#".toList (pyStrip line)
        && listContainsSub "DB_HOST".toList (pyStrip line)) = true from by
          rw [hstart, hcont]; rfl)]
  · intro line hstart hcont hhost
    have hb1 : listStartsWith "DB_CONNECTION".toList (pyStrip line) = false :=
      startsWith_clash (p := "#".toList) (q := "DB_CONNECTION".toList)
        (by decide) hstart
    unfold updateEnvLine
    rw [if_neg (bool_ne_true hb1),
      if_neg (bool_ne_true (show (listStartsWith "#".toList (pyStrip line)
        && listContainsSub "DB_HOST".toList (pyStrip line)) = false from by
          rw [hhost, Bool.and_false])),
      if_pos (show (listStartsWith "#".toList (pyStrip line)
        && listContainsSub "DB_PORT".toList (pyStrip line)) = true from by
          rw [hstart, hcont]; rfl)]
  · intro line hstart hcont hhost hport
    have hb1 : listStartsWith "DB_CONNECTION".toList (pyStrip line) = false :=
      startsWith_clash (p := "#".toList) (q := "DB_CONNECTION".toList)
        (by decide) hstart
    unfold updateEnvLine
    rw [if_neg (bool_ne_true hb1),
      if_neg (bool_ne_true (show (listStartsWith "#".toList (pyStrip line)
        && listContainsSub "DB_HOST".toList (pyStrip line)) = false from by
          rw [hhost, Bool.and_false])),
      if_neg (bool_ne_true (show (listStartsWith "#".toList (pyStrip line)
        && listContainsSub "DB_PORT".toList (pyStrip line)) = false from by
          rw [hport, Bool.and_false])),
      if_pos (show (listStartsWith "#".toList (pyStrip line)
        && listContainsSub "DB_DATABASE".toList (pyStrip line)) = true from by
          rw [hstart, hcont]; rfl)]
  · intro line hstart hcont hhost hport hdb
    have hb1 : listStartsWith "DB_CONNECTION".toList (pyStrip line) = false :=
      startsWith_clash (p := "#".toList) (q := "DB_CONNECTION".toList)
        (by decide) hstart
    unfold updateEnvLine
    rw [if_neg (bool_ne_true hb1),
      if_neg (bool_ne_true (show (listStartsWith "#".toList (pyStrip line)
        && listContainsSub "DB_HOST".toList (pyStrip line)) = false from by
          rw [hhost, Bool.and_false])),
      if_neg (bool_ne_true (show (listStartsWith "#".toList (pyStrip line)
        && listContainsSub "DB_PORT".toList (pyStrip line)) = false from by
          rw [hport, Bool.and_false])),
      if_neg (bool_ne_true (show (listStartsWith "#".toList (pyStrip line)
        && listContainsSub "DB_DATABASE".toList (pyStrip line)) = false from by
          rw [hdb, Bool.and_false])),
      if_pos (show (listStartsWith "#".toList (pyStrip line)
        && listContainsSub "DB_USERNAME".toList (pyStrip line)) = true from by
          rw [hstart, hcont]; rfl)]
  · intro line hstart hcont hhost hport hdb huser
    have hb1 : listStartsWith "DB_CONNECTION".toList (pyStrip line) = false :=
      startsWith_clash (p := "#".toList) (q := "DB_CONNECTION".toList)
        (by decide) hstart
    unfold updateEnvLine
    rw [if_neg (bool_ne_true hb1),
      if_neg (bool_ne_true (show (listStartsWith "#".toList (pyStrip line)
        && listContainsSub "DB_HOST".toList (pyStrip line)) = false from by
          rw [hhost, Bool.and_false])),
      if_neg (bool_ne_true (show (listStartsWith "#".toList (pyStrip line)
        && listContainsSub "DB_PORT".toList (pyStrip line)) = false from by
          rw [hport, Bool.and_false])),
      if_neg (bool_ne_true (show (listStartsWith "#".toList (pyStrip line)
        && listContainsSub "DB_DATABASE".toList (pyStrip line)) = false from by
          rw [hdb, Bool.and_false])),
      if_neg (bool_ne_true (show (listStartsWith "#".toList (pyStrip line)
        && listContainsSub "DB_USERNAME".toList (pyStrip line)) = false from by
          rw [huser, Bool.and_false])),
      if_pos (show (listStartsWith "#".toList (pyStrip line)
        && listContainsSub "DB_PASSWORD".toList (pyStrip line)) = true from by
          rw [hstart, hcont]; rfl)]
  · intro lines hmem
    constructor
    · have h : updateEnvLine "# DB_PORT=3306".toList = "DB_PORT=5432".toList := by
        decide
      exact h ▸ List.mem_map_of_mem updateEnvLine hmem
    · intro l hl
      obtain ⟨x, _, rfl⟩ := List.mem_map.mp hl
      exact updateEnvLine_no_commented_dbport x

/-- C2 witness: the commented-`DB_HOST` rule and the `# DB_PORT=3306` scenario,
at concrete inputs. -/
theorem claim2_witness :
    updateEnvLine "# DB_HOST=localhost".toList = "DB_HOST=pgsql".toList
  ∧ "DB_PORT=5432".toList ∈
      updateEnvFile ["APP_NAME=demo".toList, "# DB_PORT=3306".toList] :=
  ⟨claim2_correct.1 "# DB_HOST=localhost".toList (by decide) (by decide),
   (claim2_correct.2.2.2.2.2.2 ["APP_NAME=demo".toList, "# DB_PORT=3306".toList]
      (by decide)).1⟩

/-- C9: a commented `DB_CONNECTION` line (one that, trimmed, starts with `#`,
mentions `DB_CONNECTION`, and mentions none of the five keys DB_HOST, DB_PORT,
DB_DATABASE, DB_USERNAME, DB_PASSWORD) passes through the environment-file
patch unchanged: the uncomment-and-set rules fire only for the five keys, and
the `DB_CONNECTION` rewrite rule fires only on lines that start with
`DB_CONNECTION` (hence not with `#`). -/
theorem claim9_correct (line : List Char)
    (hc : listStartsWith "#".toList (pyStrip line) = true)
    (_hconn : listContainsSub "DB_CONNECTION".toList (pyStrip line) = true)
    (hhost : listContainsSub "DB_HOST".toList (pyStrip line) = false)
    (hport : listContainsSub "DB_PORT".toList (pyStrip line) = false)
    (hdb : listContainsSub "DB_DATABASE".toList (pyStrip line) = false)
    (huser : listContainsSub "DB_USERNAME".toList (pyStrip line) = false)
    (hpass : listContainsSub "DB_PASSWORD".toList (pyStrip line) = false) :
    updateEnvLine line = line := by
  have hb1 : listStartsWith "DB_CONNECTION".toList (pyStrip line) = false :=
    startsWith_clash (p := "#".toList) (q := "DB_CONNECTION".toList) (by decide) hc
  have hb7 : listStartsWith "DB_HOST=".toList (pyStrip line) = false :=
    startsWith_clash (p := "#".toList) (q := "DB_HOST=".toList) (by decide) hc
  have hb8 : listStartsWith "DB_PORT=".toList (pyStrip line) = false :=
    startsWith_clash (p := "#".toList) (q := "DB_PORT=".toList) (by decide) hc
  have hb9 : listStartsWith "DB_DATABASE=".toList (pyStrip line) = false :=
    startsWith_clash (p := "#".toList) (q := "DB_DATABASE=".toList) (by decide) hc
  have hb10 : listStartsWith "DB_USERNAME=".toList (pyStrip line) = false :=
    startsWith_clash (p := "#".toList) (q := "DB_USERNAME=".toList) (by decide) hc
  have hb11 : listStartsWith "DB_PASSWORD=".toList (pyStrip line) = false :=
    startsWith_clash (p := "#".toList) (q := "DB_PASSWORD=".toList) (by decide) hc
  unfold updateEnvLine
  rw [if_neg (bool_ne_true hb1),
    if_neg (bool_ne_true (show (listStartsWith "#".toList (pyStrip line)
      && listContainsSub "DB_HOST".toList (pyStrip line)) = false from by
        rw [hhost, Bool.and_false])),
    if_neg (bool_ne_true (show (listStartsWith "#".toList (pyStrip line)
      && listContainsSub "DB_PORT".toList (pyStrip line)) = false from by
        rw [hport, Bool.and_false])),
    if_neg (bool_ne_true (show (listStartsWith "#".toList (pyStrip line)
      && listContainsSub "DB_DATABASE".toList (pyStrip line)) = false from by
        rw [hdb, Bool.and_false])),
    if_neg (bool_ne_true (show (listStartsWith "#".toList (pyStrip line)
      && listContainsSub "DB_USERNAME".toList (pyStrip line)) = false from by
        rw [huser, Bool.and_false])),
    if_neg (bool_ne_true (show (listStartsWith "#".toList (pyStrip line)
      && listContainsSub "DB_PASSWORD".toList (pyStrip line)) = false from by
        rw [hpass, Bool.and_false])),
    if_neg (bool_ne_true hb7), if_neg (bool_ne_true hb8),
    if_neg (bool_ne_true hb9), if_neg (bool_ne_true hb10),
    if_neg (bool_ne_true hb11)]

/-- C9 witness: `# DB_CONNECTION=mysql` passes through unchanged. -/
theorem claim9_witness :
    updateEnvLine "# DB_CONNECTION=mysql".toList = "# DB_CONNECTION=mysql".toList :=
  claim9_correct "# DB_CONNECTION=mysql".toList (by decide) (by decide) (by decide)
    (by decide) (by decide) (by decide) (by decide)

/-- C10: the whole environment-file line patch is idempotent: applying the full
rule set twice yields the same content as applying it once, because every
rewritten line is a fixed point of the rules. -/
theorem claim10_correct (lines : List (List Char)) :
    updateEnvFile (updateEnvFile lines) = updateEnvFile lines := by
  induction lines with
  | nil => rfl
  | cons l ls ih =>
    simp only [updateEnvFile, List.map_cons] at ih ⊢
    rw [updateEnvLine_idem l, ih]

/-! ## Claims about the substring edits -/

/-- C3 (amended): the environment-file patch preserves the number of lines of
the file, and the composer-manifest replace preserves the number of newline
characters (hence the line count); the bundler-config edit is excluded, since
it inserts lines (see the counterexample). -/
theorem claim3_correct :
    (∀ lines : List (List Char), (updateEnvFile lines).length = lines.length)
  ∧ (∀ s : List Char, (composerUpdate s).count '\n' = s.count '\n') := by
  constructor
  · intro lines
    simp [updateEnvFile]
  · intro s
    unfold composerUpdate pyReplace
    exact replaceFuel_count '\n' composerSearch composerRepl (by decide)
      (by decide) (by decide) s.length s

/-- C3 counterexample: the bundler-config edit is a FileEditStep that does not
preserve the line count: on a config containing the two anchors and no vue
import, it inserts the import line and the plugin block. -/
theorem claim3_counterexample :
    ¬ ((viteUpdate ("import laravel from \x27laravel-vite-plugin\x27;\n"
          ++ "        laravel(\x7b\n").toList).count '\n'
        = (("import laravel from \x27laravel-vite-plugin\x27;\n"
          ++ "        laravel(\x7b\n").toList).count '\n') := by
  decide

/-- C5: the substring edits are idempotent: the composer replace (whose
replacement contains no further occurrence of the search string) and the two
guarded vite insertions (whose guards occur in their replacements) each give
the same result applied twice as applied once. -/
theorem claim5_correct :
    (∀ s : List Char, composerUpdate (composerUpdate s) = composerUpdate s)
  ∧ (∀ s : List Char, viteImportEdit (viteImportEdit s) = viteImportEdit s)
  ∧ (∀ s : List Char, vitePluginEdit (vitePluginEdit s) = vitePluginEdit s) := by
  refine ⟨?_, ?_, ?_⟩
  · intro s
    unfold composerUpdate
    rw [show composerSearch = 'p' :: "hp artisan".toList from by decide,
      show composerRepl = '.' :: "/vendor/bin/sail artisan".toList from by decide]
    exact pyReplace_idem_of_heads _ _ _ _ (by decide) (by decide) s
  · intro s
    unfold viteImportEdit
    exact guardedReplace_idem _ _ _ (by decide) (by decide) s
  · intro s
    unfold vitePluginEdit
    exact guardedReplace_idem _ _ _ (by decide) (by decide) s

/-- C8: the composer-manifest patch rewrites every occurrence of `php artisan`
(here shown for any content with exactly three occurrences) to
`./vendor/bin/sail artisan` and changes no other text: the parts between the
occurrences are kept verbatim. -/
theorem claim8_correct (p₀ p₁ p₂ p₃ : List Char)
    (h₀ : ∀ i, i < p₀.length → listStartsWith composerSearch
      (List.drop i (p₀ ++ (composerSearch ++ (p₁ ++ (composerSearch ++
        (p₂ ++ (composerSearch ++ p₃))))))) = false)
    (h₁ : ∀ i, i < p₁.length → listStartsWith composerSearch
      (List.drop i (p₁ ++ (composerSearch ++ (p₂ ++ (composerSearch ++ p₃))))) = false)
    (h₂ : ∀ i, i < p₂.length → listStartsWith composerSearch
      (List.drop i (p₂ ++ (composerSearch ++ p₃))) = false)
    (h₃ : listContainsSub composerSearch p₃ = false) :
    composerUpdate (p₀ ++ (composerSearch ++ (p₁ ++ (composerSearch ++
        (p₂ ++ (composerSearch ++ p₃)))))) =
      p₀ ++ (composerRepl ++ (p₁ ++ (composerRepl ++
        (p₂ ++ (composerRepl ++ p₃))))) := by
  have hne : composerSearch ≠ [] := by decide
  unfold composerUpdate
  rw [pyReplace_split composerSearch composerRepl hne p₀ _ h₀,
    pyReplace_split composerSearch composerRepl hne p₁ _ h₁,
    pyReplace_split composerSearch composerRepl hne p₂ _ h₂,
    pyReplace_of_not_contains composerSearch composerRepl p₃ h₃]

/-- C8 witness: a composer-manifest content with exactly three `php artisan`
occurrences, all rewritten and nothing else changed. -/
theorem claim8_witness :
    composerUpdate ("\x7b \"post-update-cmd\": [\"@".toList ++
        ("php artisan".toList ++
          (" vendor:publish --tag=laravel-assets\"], \"dev\": \"".toList ++
            ("php artisan".toList ++
              (" serve\", \"test\": \"".toList ++
                ("php artisan".toList ++ " test\" \x7d".toList)))))) =
      "\x7b \"post-update-cmd\": [\"@".toList ++
        ("./vendor/bin/sail artisan".toList ++
          (" vendor:publish --tag=laravel-assets\"], \"dev\": \"".toList ++
            ("./vendor/bin/sail artisan".toList ++
              (" serve\", \"test\": \"".toList ++
                ("./vendor/bin/sail artisan".toList ++ " test\" \x7d".toList))))) :=
  claim8_correct "\x7b \"post-update-cmd\": [\"@".toList
    " vendor:publish --tag=laravel-assets\"], \"dev\": \"".toList
    " serve\", \"test\": \"".toList " test\" \x7d".toList
    (by decide) (by decide) (by decide) (by decide)

/-- C7: on a bundler config written as `p ++ laravel-import ++ m ++
laravel-call ++ q` that lacks the vue import, where the anchors occur exactly
at the shown positions (no occurrence starts inside `p`, `m` or `q`, before or
after the insertion) and `vue(\x7b` is absent, the patch inserts the vue import
line immediately after the laravel import anchor and the vue plugin block
immediately before the `laravel(\x7b` anchor, and every other character of the
file (`p`, `m`, `q`) is kept verbatim. -/
theorem claim7_correct (p m q : List Char)
    (h₁ : listContainsSub viteVueImportGuard
      (p ++ (viteLaravelImport ++ (m ++ (viteLaravelCall ++ q)))) = false)
    (h₂ : ∀ i, i < p.length → listStartsWith viteLaravelImport
      (List.drop i (p ++ (viteLaravelImport ++ (m ++ (viteLaravelCall ++ q))))) = false)
    (h₃ : listContainsSub viteLaravelImport (m ++ (viteLaravelCall ++ q)) = false)
    (h₄ : listContainsSub viteVueCallGuard
      (p ++ ((viteLaravelImport ++ viteVueImportLine) ++
        (m ++ (viteLaravelCall ++ q)))) = false)
    (h₅ : ∀ i, i < (p ++ ((viteLaravelImport ++ viteVueImportLine) ++ m)).length →
      listStartsWith viteLaravelCall
        (List.drop i ((p ++ ((viteLaravelImport ++ viteVueImportLine) ++ m)) ++
          (viteLaravelCall ++ q))) = false)
    (h₆ : listContainsSub viteLaravelCall q = false) :
    viteUpdate (p ++ (viteLaravelImport ++ (m ++ (viteLaravelCall ++ q)))) =
      p ++ (viteLaravelImport ++ (viteVueImportLine ++
        (m ++ (viteVueCallBlock ++ (viteLaravelCall ++ q))))) := by
  have hne1 : viteLaravelImport ≠ [] := by decide
  have hne2 : viteLaravelCall ≠ [] := by decide
  unfold viteUpdate
  rw [if_neg (bool_ne_true h₁),
    pyReplace_split viteLaravelImport (viteLaravelImport ++ viteVueImportLine)
      hne1 p _ h₂,
    pyReplace_of_not_contains viteLaravelImport
      (viteLaravelImport ++ viteVueImportLine) _ h₃]
  unfold vitePluginEdit guardedReplace
  rw [if_neg (bool_ne_true h₄),
    show p ++ ((viteLaravelImport ++ viteVueImportLine) ++
        (m ++ (viteLaravelCall ++ q))) =
      (p ++ ((viteLaravelImport ++ viteVueImportLine) ++ m)) ++
        (viteLaravelCall ++ q) from by simp [List.append_assoc],
    pyReplace_split viteLaravelCall (viteVueCallBlock ++ viteLaravelCall)
      hne2 _ _ h₅,
    pyReplace_of_not_contains viteLaravelCall
      (viteVueCallBlock ++ viteLaravelCall) _ h₆]
  simp [List.append_assoc]

/-- C7 witness: the stock Laravel `vite.config.js` (lacking the vue import),
patched: the vue import line lands right after the laravel import, the vue
plugin block right before the `laravel(\x7b` call, everything else verbatim. -/
theorem claim7_witness :
    viteUpdate ("import \x7b defineConfig \x7d from \x27vite\x27;\n".toList ++
        (viteLaravelImport ++
          (("\nimport tailwindcss from \x27@tailwindcss/vite\x27;\n\nexport default defineConfig(\x7b\n    plugins: [\n").toList ++
            (viteLaravelCall ++
              ("\n            input: [\x27resources/css/app.css\x27, \x27resources/js/app.js\x27],\n            refresh: true,\n        \x7d),\n        tailwindcss(),\n    ],\n\x7d);\n").toList)))) =
      "import \x7b defineConfig \x7d from \x27vite\x27;\n".toList ++
        (viteLaravelImport ++
          (viteVueImportLine ++
            (("\nimport tailwindcss from \x27@tailwindcss/vite\x27;\n\nexport default defineConfig(\x7b\n    plugins: [\n").toList ++
              (viteVueCallBlock ++
                (viteLaravelCall ++
                  ("\n            input: [\x27resources/css/app.css\x27, \x27resources/js/app.js\x27],\n            refresh: true,\n        \x7d),\n        tailwindcss(),\n    ],\n\x7d);\n").toList))))) :=
  claim7_correct
    "import \x7b defineConfig \x7d from \x27vite\x27;\n".toList
    ("\nimport tailwindcss from \x27@tailwindcss/vite\x27;\n\nexport default defineConfig(\x7b\n    plugins: [\n").toList
    ("\n            input: [\x27resources/css/app.css\x27, \x27resources/js/app.js\x27],\n            refresh: true,\n        \x7d),\n        tailwindcss(),\n    ],\n\x7d);\n").toList
    (by decide) (by decide) (by decide) (by decide) (by decide) (by decide)

/-! ## Claims about the pipeline control flow -/

/-- A run whose steps all succeed up to a failing step aborts right after
launching the failing command: the trace is the successful prefix followed by
the failing step's starting notice and launch, and the run reports failure. -/
theorem runScript_abort (ok : String → Bool) :
    ∀ pre (st : PipelineStep) post, (∀ x ∈ pre, ok x.command = true) →
      ok st.command = false →
      runScript ok (pre ++ st :: post) =
        (successTrace pre ++ [TraceItem.notice st.startMsg,
          TraceItem.launched st.command], false) := by
  intro pre
  induction pre with
  | nil =>
    intro st post _ hfail
    simp [runScript, successTrace, hfail]
  | cons x pre' ih =>
    intro st post hpre hfail
    have hx : ok x.command = true := hpre x (List.mem_cons_self x pre')
    have hpre' : ∀ y ∈ pre', ok y.command = true :=
      fun y hy => hpre y (List.mem_cons_of_mem x hy)
    simp [runScript, successTrace, hx, ih st post hpre' hfail]

/-- A notice in a fully successful trace is some step's start or done
message. -/
theorem successTrace_notice_mem (msg : String) :
    ∀ steps : List PipelineStep, TraceItem.notice msg ∈ successTrace steps →
      ∃ x ∈ steps, msg = x.startMsg ∨ msg = x.doneMsg := by
  intro steps
  induction steps with
  | nil => intro h; simp [successTrace] at h
  | cons x rest ih =>
    intro h
    simp only [successTrace, List.mem_cons] at h
    rcases h with h | h | h | h
    · exact ⟨x, List.mem_cons_self x rest, Or.inl (by simpa using h)⟩
    · simp at h
    · exact ⟨x, List.mem_cons_self x rest, Or.inr (by simpa using h)⟩
    · obtain ⟨y, hy, hmsg⟩ := ih h
      exact ⟨y, List.mem_cons_of_mem x hy, hmsg⟩

/-- C4: if the command of step `k` fails while all earlier commands succeed,
the run's trace is exactly the successful prefix plus the failing step's start
notice and launch: the steps after `k` never execute (the result does not
depend on them at all), no completed notice is emitted for step `k`, and no
further event of any kind (no cleanup or rollback) follows the failure. -/
theorem claim4_correct (ok : String → Bool) (pre : List PipelineStep)
    (st : PipelineStep) (post : List PipelineStep)
    (hpre : ∀ x ∈ pre, ok x.command = true) (hfail : ok st.command = false) :
    runScript ok (pre ++ st :: post) =
      (successTrace pre ++ [TraceItem.notice st.startMsg,
        TraceItem.launched st.command], false)
  ∧ (∀ post' : List PipelineStep,
      runScript ok (pre ++ st :: post') = runScript ok (pre ++ st :: post))
  ∧ (st.doneMsg ≠ st.startMsg →
      (∀ x ∈ pre, st.doneMsg ≠ x.startMsg ∧ st.doneMsg ≠ x.doneMsg) →
      TraceItem.notice st.doneMsg ∉ (runScript ok (pre ++ st :: post)).1) := by
  have hmain := runScript_abort ok pre st post hpre hfail
  refine ⟨hmain, ?_, ?_⟩
  · intro post'
    rw [hmain, runScript_abort ok pre st post' hpre hfail]
  · intro hne hmsg
    rw [hmain]
    show TraceItem.notice st.doneMsg ∉
      successTrace pre ++ [TraceItem.notice st.startMsg,
        TraceItem.launched st.command]
    intro hmem
    simp only [List.mem_append, List.mem_cons, List.mem_singleton] at hmem
    rcases hmem with hmem | hmem | hmem
    · obtain ⟨x, hx, hor⟩ := successTrace_notice_mem st.doneMsg pre hmem
      rcases hor with h | h
      · exact (hmsg x hx).1 h
      · exact (hmsg x hx).2 h
    · exact hne (by simpa using hmem)
    · simp at hmem

/-- C4 witness: the script's own step list with the `sail up -d` command
failing: the first three steps run, the fourth starts and launches, nothing
else happens and its completed notice never appears. -/
theorem claim4_witness :
    runScript (fun c => c != "./vendor/bin/sail up -d")
        (sailPipelineSteps.take 3 ++
          ⟨"Starting Sail containers...", "./vendor/bin/sail up -d",
            "Sail containers started successfully"⟩ :: sailPipelineSteps.drop 4) =
      (successTrace (sailPipelineSteps.take 3) ++
        [TraceItem.notice "Starting Sail containers...",
         TraceItem.launched "./vendor/bin/sail up -d"], false)
  ∧ TraceItem.notice "Sail containers started successfully" ∉
      (runScript (fun c => c != "./vendor/bin/sail up -d")
        (sailPipelineSteps.take 3 ++
          ⟨"Starting Sail containers...", "./vendor/bin/sail up -d",
            "Sail containers started successfully"⟩ ::
              sailPipelineSteps.drop 4)).1 := by
  have h := claim4_correct (fun c => c != "./vendor/bin/sail up -d")
    (sailPipelineSteps.take 3)
    ⟨"Starting Sail containers...", "./vendor/bin/sail up -d",
      "Sail containers started successfully"⟩
    (sailPipelineSteps.drop 4) (by decide) (by decide)
  exact ⟨h.1, h.2.2 (by decide) (by decide)⟩

/-- C6: each edit/update step whose target file does not exist is skipped with
a warning (the file state is untouched, the warning flag is set) and the
pipeline continues: the file-operation run always succeeds when the write
step's I/O succeeds, applying every edit whose target exists and warning for
each missing one — whereas a failing FileWriteStep aborts the run. -/
theorem claim6_correct :
    (∀ fs : ProjectFiles, fs.env = none → editEnvStep fs = (fs, true))
  ∧ (∀ fs : ProjectFiles, fs.composerJson = none → editComposerStep fs = (fs, true))
  ∧ (∀ fs : ProjectFiles, fs.viteConfig = none → editViteStep fs = (fs, true))
  ∧ (∀ fs : ProjectFiles, fileOpsRun true fs =
      some ({ dockerWritten := true, env := fs.env.map updateEnvFile,
              composerJson := fs.composerJson.map composerUpdate,
              viteConfig := fs.viteConfig.map viteUpdate },
            (fs.env.isNone, fs.composerJson.isNone, fs.viteConfig.isNone)))
  ∧ (∀ fs : ProjectFiles, fileOpsRun false fs = none) := by
  refine ⟨?_, ?_, ?_, ?_, ?_⟩
  · intro fs h; simp [editEnvStep, h]
  · intro fs h; simp [editComposerStep, h]
  · intro fs h; simp [editViteStep, h]
  · intro fs
    obtain ⟨d, e, c, v⟩ := fs
    cases e <;> cases c <;> cases v <;>
      simp [fileOpsRun, editEnvStep, editComposerStep, editViteStep]
  · intro fs; simp [fileOpsRun]

/-- C6 witness: with all three optional files missing, each edit step skips
with a warning and leaves the state unchanged. -/
theorem claim6_witness :
    editEnvStep ⟨false, none, none, none⟩ = (⟨false, none, none, none⟩, true)
  ∧ editComposerStep ⟨false, none, none, none⟩ = (⟨false, none, none, none⟩, true)
  ∧ editViteStep ⟨false, none, none, none⟩ = (⟨false, none, none, none⟩, true) :=
  ⟨claim6_correct.1 ⟨false, none, none, none⟩ rfl,
   claim6_correct.2.1 ⟨false, none, none, none⟩ rfl,
   claim6_correct.2.2.1 ⟨false, none, none, none⟩ rfl⟩



